import Mathlib

/-!
# A Lean model of the `bookops-sierra` client

This file gives a shallow embedding of the auth-and-request lifecycle of the
`bookops_sierra` Python package (modules `authorize.py`, `query.py`,
`session.py`, `errors.py`) and proves the specification claims about it.

Conventions of the embedding:
* Python exceptions become an explicit `PyError` value threaded through
  `Except` results, or a `TokenState × Option PyError` pair when the source
  mutates `self` before raising.
* `datetime` instants are integers (seconds, UTC); `timedelta(seconds = n)`
  is integer addition.
* The HTTP transport (the `requests` library) is an external collaborator:
  each operation takes the transport outcome as an argument
  (`TokenTransport` for the token POST, `HttpTransport` for a resource call).
* Python `str` primitives (`strip`, `lower`, `split`, indexing) are modelled
  by executable list-based helpers so every definition evaluates by `decide`.
-/

deriving instance DecidableEq for Except

/-- Python exception values observable at the package boundary.
`bookopsSierraError` is `errors.BookopsSierraError`; `typeError` and
`indexError` are the built-in exceptions the source can raise. -/
inductive PyError where
  | bookopsSierraError (msg : String)
  | typeError (msg : String)
  | indexError
deriving DecidableEq, Repr

/-- JSON values of the token endpoint body, restricted to the shapes the
client inspects (`expires_in` numeric or not, `access_token` any value). -/
inductive JsonVal where
  | num (n : Int)
  | str (s : String)
  | null
deriving DecidableEq, Repr

/-- Python `str(...)` rendering of a JSON field value, used in f-strings. -/
def jsonValStr : JsonVal → String
  | .num n => toString n
  | .str s => s
  | .null => "None"

/-- The token endpoint response body: the two fields the client reads.
A `none` field is absent from the JSON object. -/
structure TokenJson where
  access_token : Option JsonVal
  expires_in : Option JsonVal
deriving DecidableEq, Repr

/-- Crude rendering of the body for the non-200 diagnostic f-string. -/
def tokenJsonRepr (j : TokenJson) : String :=
  "\x7baccess_token: " ++ (match j.access_token with | some v => jsonValStr v | none => "<absent>")
    ++ ", expires_in: " ++ (match j.expires_in with | some v => jsonValStr v | none => "<absent>") ++ "\x7d"

/-- Message of `authorize.py:92`. -/
def accessTokenMissingMsg : String :=
  "Missing access_token parameter in the authenticating server\x27s response."

/-- Message of `authorize.py:115`. -/
def expiresInMissingMsg : String :=
  "Missing expires_in parameter in the server\x27s response."

/-- `SierraToken._parse_access_token_string` (`authorize.py:79-94`):
returns `server_response["access_token"]` unchanged; a missing key raises
`BookopsSierraError` with the dedicated message. -/
def parse_access_token_string (j : TokenJson) : Except PyError JsonVal :=
  match j.access_token with
  | some v => .ok v
  | none => .error (.bookopsSierraError accessTokenMissingMsg)

/-- `SierraToken._calculate_expiration_time` (`authorize.py:96-117`):
`now(utc) + timedelta(seconds = expires_in - 1)`.  A missing key raises
`KeyError` and a non-numeric value raises `TypeError` in `expires_in - 1`;
both are caught and re-raised as the same `BookopsSierraError`. -/
def calculate_expiration_time (now : Int) (j : TokenJson) : Except PyError Int :=
  match j.expires_in with
  | some (.num e) => .ok (now + (e - 1))
  | _ => .error (.bookopsSierraError expiresInMissingMsg)

/-- The mutable state of a `SierraToken` (`authorize.py:56-58`): the three
fields `_get_token` overwrites.  All are `None` before the first exchange. -/
structure TokenState where
  token_str : Option JsonVal
  expires_on : Option Int
  server_response : Option (Nat × TokenJson)
deriving DecidableEq, Repr

/-- Outcome of the `requests.post` call to the token endpoint. -/
inductive TokenTransport where
  | response (status : Nat) (body : TokenJson)
  | timeout
  | connectionError
  | otherError (excName : String)
deriving DecidableEq, Repr

/-- Python exceptions as they arrive at an `except` chain. `httpError`
carries the response body alongside its message because the handler in
`query.py` reads `self.response.content`. -/
inductive PyExc where
  | timeout
  | connectionError
  | httpError (msg : String) (body : String)
  | bookopsSierraError (msg : String)
  | otherExc (excName : String)
deriving DecidableEq, Repr

/-- Rendering of `sys.exc_info()[0]` for each exception kind. -/
def excClassName : PyExc → String
  | .timeout => "requests.exceptions.Timeout"
  | .connectionError => "requests.exceptions.ConnectionError"
  | .httpError _ _ => "requests.exceptions.HTTPError"
  | .bookopsSierraError _ => "bookops_sierra.errors.BookopsSierraError"
  | .otherExc n => n

/-- One `except E: ...` clause: which exceptions it catches and the error it
raises for them. -/
structure ExceptClause where
  catches : PyExc → Bool
  handle : PyExc → PyError

/-- Python `except` semantics: the clauses are tried in source order and the
first match handles the exception; `none` if no clause matches. -/
def runExceptChain : List ExceptClause → PyExc → Option PyError
  | [], _ => none
  | c :: rest, e => if c.catches e then some (c.handle e) else runExceptChain rest e

/-- The `except` chain of `SierraToken._get_token` (`authorize.py:143-148`),
in source order: `(Timeout, ConnectionError)`, then `BookopsSierraError`
(re-raised unchanged), then the catch-all `Exception`. -/
def getTokenExceptClauses : List ExceptClause :=
  [ { catches := fun e => match e with
        | .timeout => true | .connectionError => true | _ => false,
      handle := fun e => .bookopsSierraError ("Trouble connecting: " ++ excClassName e) },
    { catches := fun e => match e with
        | .bookopsSierraError _ => true | _ => false,
      handle := fun e => match e with
        | .bookopsSierraError m => .bookopsSierraError m
        | _ => .bookopsSierraError (excClassName e) },
    { catches := fun _ => true,
      handle := fun e => .bookopsSierraError ("Unexpected error occured: " ++ excClassName e) } ]

/-- The `except` chain of `Query.__init__` (`query.py:65-74`), in source
order: `HTTPError`, then `(Timeout, ConnectionError)`, then `Exception`. -/
def queryExceptClauses : List ExceptClause :=
  [ { catches := fun e => match e with
        | .httpError _ _ => true | _ => false,
      handle := fun e => match e with
        | .httpError m body => .bookopsSierraError (m ++ ". Server response: " ++ body)
        | _ => .bookopsSierraError (excClassName e) },
    { catches := fun e => match e with
        | .timeout => true | .connectionError => true | _ => false,
      handle := fun e => .bookopsSierraError ("Connection Error: " ++ excClassName e) },
    { catches := fun _ => true,
      handle := fun e => .bookopsSierraError ("Unexpected request error: " ++ excClassName e) } ]

/-- The `try` body of `SierraToken._get_token` (`authorize.py:127-142`):
performs the POST and, on 200, the three sequential assignments to `self`.
Returns the state as mutated so far together with the exception raised, if
any — a later assignment failing leaves the earlier ones in place, exactly
as in the source. -/
def getTokenTryBody (st : TokenState) (now : Int) (tr : TokenTransport) :
    TokenState × Option PyExc :=
  match tr with
  | .timeout => (st, some .timeout)
  | .connectionError => (st, some .connectionError)
  | .otherError n => (st, some (.otherExc n))
  | .response status body =>
    if status = 200 then
      let st1 := { st with server_response := some (status, body) }
      match parse_access_token_string body with
      | .error (.bookopsSierraError m) => (st1, some (.bookopsSierraError m))
      | .error _ => (st1, some (.otherExc "unreachable"))
      | .ok tok =>
        let st2 := { st1 with token_str := some tok }
        match calculate_expiration_time now body with
        | .error (.bookopsSierraError m) => (st2, some (.bookopsSierraError m))
        | .error _ => (st2, some (.otherExc "unreachable"))
        | .ok exp => ({ st2 with expires_on := some exp }, none)
    else
      (st, some (.bookopsSierraError
        ("Invalid request. Oauth server returned error: " ++ tokenJsonRepr body)))

/-- `SierraToken._get_token` (`authorize.py:119-148`): the `try` body
followed by its `except` chain.  The returned state is the token as left by
the call; the returned error, when `some`, is the exception it raises. -/
def get_token (st : TokenState) (now : Int) (tr : TokenTransport) :
    TokenState × Option PyError :=
  let (st1, exc) := getTokenTryBody st now tr
  match exc with
  | none => (st1, none)
  | some e => (st1, runExceptChain getTokenExceptClauses e)

/-- `SierraToken.is_expired` (`authorize.py:150-165`): `self.expires_on <
datetime.now(utc)`.  Comparing an unset (`None`) expiry against a datetime
raises `TypeError` in Python, hence the `Except`. -/
def is_expired (st : TokenState) (now : Int) : Except PyError Bool :=
  match st.expires_on with
  | some e => .ok (decide (e < now))
  | none => .error (.typeError "not supported between instances of NoneType and datetime")

/-- The constructor arguments of `SierraToken` that are validated
(`authorize.py:53`); the empty string stands for an empty/absent (falsy)
argument. -/
structure SierraTokenArgs where
  client_id : String
  client_secret : String
  host_url : String
  api_version : String
deriving DecidableEq, Repr

/-- `SierraToken.__init__` (`authorize.py:39-70`): validates the four
arguments with `not all([...])` before anything else, then performs the
token exchange.  The boolean records whether the token POST was performed,
so that error paths can be shown to make no network call. -/
def sierraToken_init (a : SierraTokenArgs) (now : Int) (tr : TokenTransport) :
    Except PyError TokenState × Bool :=
  if a.client_id = "" ∨ a.client_secret = "" ∨ a.host_url = "" ∨ a.api_version = "" then
    (.error (.bookopsSierraError "Missing Sierra authentication argument."), false)
  else
    let st0 : TokenState := ⟨none, none, none⟩
    let (st1, err) := get_token st0 now tr
    match err with
    | some e => (.error e, true)
    | none => (.ok st1, true)

/-- The keyword parameters accepted by `SierraToken.__init__`
(`authorize.py:39-50`). -/
def SierraToken.constructorParams : List String :=
  ["client_id", "client_secret", "host_url", "api_version", "agent", "timeout"]

/-- The keyword parameters accepted by `SierraSession.__init__`
(`session.py:38-45`). -/
def SierraSession.constructorParams : List String :=
  ["authorization", "timeout"]

/-- The keyword parameters accepted by `Query.__init__` (`query.py:27-35`). -/
def Query.constructorParams : List String :=
  ["session", "prepared_request", "timeout"]

/-- Python `str(token_str)` as interpolated into the Bearer header. -/
def pyStrOfToken : Option JsonVal → String
  | some v => jsonValStr v
  | none => "None"

/-- `dict.update` on the session headers, modelled as an association list:
an existing key is overwritten in place, a new key is appended. -/
def headersUpdate (hs : List (String × String)) (k v : String) :
    List (String × String) :=
  if hs.any (fun p => p.1 = k) then
    hs.map (fun p => if p.1 = k then (k, v) else p)
  else hs ++ [(k, v)]

/-- Header lookup: the first entry with the given key. -/
def headersLookup (hs : List (String × String)) (k : String) : Option String :=
  (hs.find? (fun p => p.1 = k)).map Prod.snd

/-- The state of a `SierraSession` the claims are about: the shared
`SierraToken` and the session headers (`session.py:48,59,65,68`). -/
structure SessionState where
  authorization : TokenState
  headers : List (String × String)
deriving DecidableEq, Repr

/-- `SierraSession._update_authorization` (`session.py:182-186`):
`headers.update({"Authorization": f"Bearer {token_str}"})`. -/
def update_authorization (s : SessionState) : SessionState :=
  let v := "Bearer " ++ pyStrOfToken s.authorization.token_str
  { s with headers := headersUpdate s.headers "Authorization" v }

/-- `SierraSession._fetch_new_token` (`session.py:70-79`): runs the token
exchange and, only when it succeeds, re-derives the Authorization header;
a `BookopsSierraError` from the exchange is re-raised unchanged, leaving the
header as it was (the token object itself keeps whatever the exchange left). -/
def fetch_new_token (s : SessionState) (now : Int) (tr : TokenTransport) :
    SessionState × Option PyError :=
  let (tok, err) := get_token s.authorization now tr
  let s1 := { s with authorization := tok }
  match err with
  | some e => (s1, some e)
  | none => (update_authorization s1, none)

/-- Outcome of `session.send(prepared_request, timeout)` for one resource
call. -/
inductive HttpTransport where
  | response (status : Nat) (reason : String) (url : String) (content : String)
  | timeout
  | connectionError
  | otherError (excName : String)
deriving DecidableEq, Repr

/-- The message of the `requests.HTTPError` raised by
`Response.raise_for_status` (external collaborator, modelled at its
interface): client errors for 4xx, server errors for 5xx. -/
def http_error_msg (status : Nat) (reason url : String) : String :=
  if status < 500 then
    toString status ++ " Client Error: " ++ reason ++ " for url: " ++ url
  else
    toString status ++ " Server Error: " ++ reason ++ " for url: " ++ url

/-- `Response.raise_for_status` (external collaborator): raises `HTTPError`
exactly for statuses in `400..599`, carrying the response body for the
handler in `query.py:65-69`. -/
def raise_for_status (status : Nat) (reason url content : String) : Option PyExc :=
  if 400 ≤ status ∧ status < 600 then
    some (.httpError (http_error_msg status reason url) content)
  else none

/-- The observable outcome of `Query.__init__`: how many token refreshes ran,
whether the prepared request was handed to `session.send`, the response as
stored on `self.response`, the exception raised (if any), and the session as
left behind. -/
structure QueryResult where
  refreshes : Nat
  sent : Bool
  response : Option (Nat × String)
  error : Option PyError
  session : SessionState
deriving DecidableEq, Repr

/-- The send-and-classify part of `Query.__init__` (`query.py:61-74`):
dispatches the prepared request, applies `raise_for_status`, and runs any
exception through the query `except` chain. -/
def querySendPhase (n : Nat) (s1 : SessionState) (reqTr : HttpTransport) :
    QueryResult :=
  match reqTr with
  | .response status reason url content =>
    match raise_for_status status reason url content with
    | some exc =>
        ⟨n, true, some (status, content), runExceptChain queryExceptClauses exc, s1⟩
    | none => ⟨n, true, some (status, content), none, s1⟩
  | .timeout => ⟨n, true, none, runExceptChain queryExceptClauses .timeout, s1⟩
  | .connectionError =>
      ⟨n, true, none, runExceptChain queryExceptClauses .connectionError, s1⟩
  | .otherError nm =>
      ⟨n, true, none, runExceptChain queryExceptClauses (.otherExc nm), s1⟩

/-- `Query.__init__` (`query.py:54-74`): the pre-flight staleness check with
at most one `_fetch_new_token` call, then the send phase.  A refresh failure
propagates before the request is sent. -/
def query_init (s : SessionState) (now : Int) (tokenTr : TokenTransport)
    (reqTr : HttpTransport) : QueryResult :=
  match is_expired s.authorization now with
  | .error e => ⟨0, false, none, some e, s⟩
  | .ok true =>
    match fetch_new_token s now tokenTr with
    | (s1, some e) => ⟨1, false, none, some e, s1⟩
    | (s1, none) => querySendPhase 1 s1 reqTr
  | .ok false => querySendPhase 0 s reqTr

/-- Python `str.lower()` (ASCII range, which is all the source compares). -/
def pyLower (s : String) : String := ⟨s.data.map Char.toLower⟩

/-- Python `str.strip()`: removes leading and trailing whitespace. -/
def pyStrip (s : String) : String :=
  ⟨((s.data.dropWhile Char.isWhitespace).reverse.dropWhile Char.isWhitespace).reverse⟩

/-- Python `str.isdigit()` (ASCII digits; empty string is not a digit
string). -/
def pyIsDigit (s : String) : Bool :=
  !s.data.isEmpty && s.data.all Char.isDigit

/-- Helper for Python `str.split(",")`. -/
def pySplitCommaAux : List Char → List Char → List String
  | [], acc => [⟨acc.reverse⟩]
  | c :: rest, acc =>
      if c = ',' then ⟨acc.reverse⟩ :: pySplitCommaAux rest []
      else pySplitCommaAux rest (c :: acc)

/-- Python `str.split(",")`; note `"".split(",") == [""]`. -/
def pySplitComma (s : String) : List String := pySplitCommaAux s.data []

/-- A Python value passed as a Sierra record identifier: `int`, `str`, or
anything else (e.g. `None`), which `_prep_sierra_number` rejects. -/
inductive PyVal where
  | int (n : Int)
  | str (s : String)
  | pynone
deriving DecidableEq, Repr

/-- Message of `session.py:136`. -/
def invalidSierraMsg : String := "Invalid Sierra number passed."

/-- The length/digit checks of `_prep_sierra_number` (`session.py:147-155`). -/
def sierraNumberLenCheck (sid : String) : Except PyError String :=
  if sid.data.length = 8 then
    if pyIsDigit sid then .ok sid else .error (.bookopsSierraError invalidSierraMsg)
  else if sid.data.length = 9 then
    let sid8 : String := ⟨sid.data.take 8⟩
    if pyIsDigit sid8 then .ok sid8 else .error (.bookopsSierraError invalidSierraMsg)
  else .error (.bookopsSierraError invalidSierraMsg)

/-- The tail of `SierraSession._prep_sierra_number` (`session.py:145-157`),
after the argument has been converted to a string: `sid.lower()[0]` raises
`IndexError` on an empty string; a leading `b`/`i` is dropped; a length-8
all-digit string is returned as-is; a length-9 string is truncated to its
first 8 characters, which must be digits; everything else raises the
validation error. -/
def sierraNumberCore (sid : String) : Except PyError String :=
  if sid.data.isEmpty then .error .indexError
  else
    if ((pyLower sid).data.take 1 = ['b'] ∨ (pyLower sid).data.take 1 = ['i']) then
      sierraNumberLenCheck ⟨sid.data.drop 1⟩
    else
      sierraNumberLenCheck sid

/-- `SierraSession._prep_sierra_number` (`session.py:126-157`): an `int` is
rendered with `str(...)`, a `str` is stripped of surrounding whitespace, any
other value raises the validation error; then the core check runs. -/
def prep_sierra_number (v : PyVal) : Except PyError String :=
  match v with
  | .pynone => .error (.bookopsSierraError invalidSierraMsg)
  | .int n => sierraNumberCore (toString n)
  | .str s => sierraNumberCore (pyStrip s)

/-- The `sids` argument of `_prep_sierra_numbers`: a comma-delimited string,
a list of identifiers, or `None`. -/
inductive SidsArg where
  | str (s : String)
  | list (l : List PyVal)
  | pynone
deriving DecidableEq, Repr

/-- `SierraSession._prep_sierra_numbers` (`session.py:159-180`): a list is
normalized element by element, a string is split on commas and each piece
normalized, anything else contributes nothing; the results are re-joined
with commas.  The first failing element propagates its exception. -/
def prep_sierra_numbers (v : SidsArg) : Except PyError String :=
  match v with
  | .pynone => .ok (String.intercalate "," [])
  | .list l => do
      let vs ← l.mapM prep_sierra_number
      return String.intercalate "," vs
  | .str s => do
      let vs ← (pySplitComma s).mapM (fun t => prep_sierra_number (.str t))
      return String.intercalate "," vs

/-- Modelled from the spec: the specification wording of the length/digit
rule — a remainder of exactly 8 digits is returned as-is; a remainder of
exactly 9 characters has its 9th character dropped without validation and
its first 8 characters must be digits; any other length or non-digit
content is the validation error. -/
def specSierraLenCheck (t : String) : Except PyError String :=
  if t.data.length = 8 ∧ pyIsDigit t then .ok t
  else if t.data.length = 9 ∧ pyIsDigit ⟨t.data.take 8⟩ then .ok ⟨t.data.take 8⟩
  else .error (.bookopsSierraError invalidSierraMsg)

/-- Modelled from the spec (amended): record-number normalization of a
string — surrounding whitespace is first stripped (amendment); a string
that is empty after stripping raises an index error, not the validation
error (amendment); an optional single case-insensitive record-type letter
(`b` for bibs, `i` for items) is stripped; then the length/digit rule. -/
def specSierraNumberCore (sid : String) : Except PyError String :=
  if sid.data.isEmpty then .error .indexError
  else
    if ((pyLower sid).data.take 1 = ['b'] ∨ (pyLower sid).data.take 1 = ['i']) then
      specSierraLenCheck ⟨sid.data.drop 1⟩
    else
      specSierraLenCheck sid

/-- Modelled from the spec (amended): record-number normalization — an
integer is rendered in decimal, a string is stripped of surrounding
whitespace, any other value (e.g. `None`) is the validation error. -/
def specSierraNumber (v : PyVal) : Except PyError String :=
  match v with
  | .pynone => .error (.bookopsSierraError invalidSierraMsg)
  | .int n => specSierraNumberCore (toString n)
  | .str s => specSierraNumberCore (pyStrip s)

/-- Modelled from the spec (amended): multi-record normalization — a list is
normalized element by element, a comma-delimited string is split and each
piece normalized (so an empty string yields one empty piece, which raises
an index error — amendment), an absent input yields the empty joined
result. -/
def specSierraNumbers (v : SidsArg) : Except PyError String :=
  match v with
  | .pynone => .ok (String.intercalate "," [])
  | .list l => do
      let vs ← l.mapM specSierraNumber
      return String.intercalate "," vs
  | .str s => do
      let vs ← (pySplitComma s).mapM (fun t => specSierraNumber (.str t))
      return String.intercalate "," vs

theorem sierraNumberLenCheck_eq_spec (t : String) :
    sierraNumberLenCheck t = specSierraLenCheck t := by
  simp only [sierraNumberLenCheck, specSierraLenCheck]
  split_ifs <;> first | rfl | tauto | omega

theorem sierraNumberCore_eq_spec (sid : String) :
    sierraNumberCore sid = specSierraNumberCore sid := by
  simp only [sierraNumberCore, specSierraNumberCore]
  split_ifs <;> simp [sierraNumberLenCheck_eq_spec]

theorem prep_sierra_number_eq_spec (v : PyVal) :
    prep_sierra_number v = specSierraNumber v := by
  cases v <;> simp [prep_sierra_number, specSierraNumber, sierraNumberCore_eq_spec]

theorem prep_sierra_number_funext : prep_sierra_number = specSierraNumber :=
  funext prep_sierra_number_eq_spec

theorem prep_sierra_numbers_eq_spec (v : SidsArg) :
    prep_sierra_numbers v = specSierraNumbers v := by
  cases v <;> simp [prep_sierra_numbers, specSierraNumbers, prep_sierra_number_funext]

/-- `needle` occurs verbatim inside `hay`. -/
def containsStr (hay needle : String) : Prop :=
  List.IsInfix needle.data hay.data

theorem containsStr_left (a b : String) : containsStr (a ++ b) a :=
  ⟨[], b.data, by simp⟩

theorem containsStr_right (a b : String) : containsStr (a ++ b) b :=
  ⟨a.data, [], by simp⟩

/-- C2: for every successful token exchange whose response carries a numeric
`expires_in`, the stored expiry instant equals the acquisition instant
(current UTC time at parse) plus exactly `expires_in - 1` seconds; a missing
or non-numeric `expires_in` raises an authentication error with a distinct
message naming that field. -/
theorem c2_expiry_calculation (now : Int) (j : TokenJson) :
    (∀ e : Int, j.expires_in = some (.num e) →
        calculate_expiration_time now j = .ok (now + (e - 1))) ∧
    (∀ (st : TokenState) (av : JsonVal) (e : Int),
        j.access_token = some av → j.expires_in = some (.num e) →
        (get_token st now (.response 200 j)).1.expires_on = some (now + (e - 1)) ∧
        (get_token st now (.response 200 j)).2 = none) ∧
    ((j.expires_in = none ∨ (∃ s, j.expires_in = some (.str s)) ∨ j.expires_in = some .null) →
        calculate_expiration_time now j = .error (.bookopsSierraError expiresInMissingMsg)) ∧
    containsStr expiresInMissingMsg "expires_in" ∧
    expiresInMissingMsg ≠ accessTokenMissingMsg := by
  refine ⟨?_, ?_, ?_, ?_, ?_⟩
  · intro e he; simp [calculate_expiration_time, he]
  · intro st av e ha he
    simp [get_token, getTokenTryBody, parse_access_token_string,
      calculate_expiration_time, ha, he]
  · rintro (h | ⟨s, h⟩ | h) <;> simp [calculate_expiration_time, h]
  · unfold containsStr
    decide
  · decide

/-- Witness for `c2_expiry_calculation` at a concrete exchange. -/
theorem c2_expiry_calculation_witness :
    calculate_expiration_time 1000 ⟨some (.str "abc"), some (.num 3600)⟩ =
      .ok (1000 + (3600 - 1)) :=
  (c2_expiry_calculation 1000 ⟨some (.str "abc"), some (.num 3600)⟩).1 3600 rfl

/-- C3 (code bug): the spec and the repository's own test fixture
(`tests/conftest.py:148`, `SierraSession(authorization=..., delay=None)`)
treat an inter-request delay as a recognized `SierraSession` construction
option, but the constructor accepts only `authorization` and `timeout`, and
the request executor has no pause step at all. -/
theorem c3_delay_not_recognized :
    ¬ ("delay" ∈ SierraSession.constructorParams) ∧
    ¬ ("delay" ∈ Query.constructorParams) ∧
    SierraSession.constructorParams = ["authorization", "timeout"] := by decide

/-- C4 (amended): record-number normalization equals the specification rule
once two amendments are made — an input string is first stripped of
surrounding whitespace, and a string that is empty after stripping raises an
index error rather than the validation error; all the claim's examples hold. -/
theorem c4_record_number_normalization_amended :
    (∀ v : PyVal, prep_sierra_number v = specSierraNumber v) ∧
    prep_sierra_number (.str "12345678") = .ok "12345678" ∧
    prep_sierra_number (.str "123456789") = .ok "12345678" ∧
    prep_sierra_number (.str "b12345678") = .ok "12345678" ∧
    prep_sierra_number (.str "i21234567x") = .ok "21234567" ∧
    prep_sierra_number (.str "12345") = .error (.bookopsSierraError invalidSierraMsg) ∧
    prep_sierra_number .pynone = .error (.bookopsSierraError invalidSierraMsg) :=
  ⟨prep_sierra_number_eq_spec, by decide, by decide, by decide, by decide,
    by decide, by decide⟩

/-- C4 counterexample: the claim as stated demands the validation error
`"Invalid Sierra number passed."` for any stripped remainder whose length is
not 8 or 9, but on the empty string the code raises `IndexError` (from
`sid.lower()[0]`), and it accepts `" 12345678 "` — length 10 as given,
which the stated rule would reject — because it strips surrounding
whitespace first. -/
theorem c4_empty_and_padded_cx :
    prep_sierra_number (.str "") = .error .indexError ∧
    prep_sierra_number (.str "") ≠ .error (.bookopsSierraError invalidSierraMsg) ∧
    prep_sierra_number (.str " 12345678 ") = .ok "12345678" := by decide

/-- C5: in both the token exchange and the request executor, a timeout or
connection failure is classified by the specific handler (first clause to
match in source order), never by the trailing generic catch-all. -/
theorem c5_specific_before_generic :
    (∀ (st : TokenState) (now : Int), (get_token st now .timeout).2 =
        some (.bookopsSierraError ("Trouble connecting: " ++ excClassName .timeout))) ∧
    (∀ (st : TokenState) (now : Int), (get_token st now .connectionError).2 =
        some (.bookopsSierraError ("Trouble connecting: " ++ excClassName .connectionError))) ∧
    (∀ (n : Nat) (s1 : SessionState), (querySendPhase n s1 .timeout).error =
        some (.bookopsSierraError ("Connection Error: " ++ excClassName .timeout))) ∧
    (∀ (n : Nat) (s1 : SessionState), (querySendPhase n s1 .connectionError).error =
        some (.bookopsSierraError ("Connection Error: " ++ excClassName .connectionError))) ∧
    runExceptChain getTokenExceptClauses .timeout ≠
        some (.bookopsSierraError ("Unexpected error occured: " ++ excClassName .timeout)) ∧
    runExceptChain getTokenExceptClauses .connectionError ≠
        some (.bookopsSierraError ("Unexpected error occured: " ++ excClassName .connectionError)) ∧
    runExceptChain queryExceptClauses .timeout ≠
        some (.bookopsSierraError ("Unexpected request error: " ++ excClassName .timeout)) ∧
    runExceptChain queryExceptClauses .connectionError ≠
        some (.bookopsSierraError ("Unexpected request error: " ++ excClassName .connectionError)) :=
  ⟨fun _ _ => rfl, fun _ _ => rfl, fun _ _ => rfl, fun _ _ => rfl,
    by decide, by decide, by decide, by decide⟩

/-- C8: constructing a `SierraToken` with any of the four required arguments
empty/absent raises the configuration error and performs no token POST. -/
theorem c8_config_error_before_network (a : SierraTokenArgs) (now : Int)
    (tr : TokenTransport)
    (h : a.client_id = "" ∨ a.client_secret = "" ∨ a.host_url = "" ∨ a.api_version = "") :
    sierraToken_init a now tr =
      (.error (.bookopsSierraError "Missing Sierra authentication argument."), false) := by
  unfold sierraToken_init
  rw [if_pos h]

/-- Witness for `c8_config_error_before_network` with an empty client id. -/
theorem c8_config_error_witness :
    sierraToken_init ⟨"", "secret", "https://host.org", "v6"⟩ 0 .timeout =
      (.error (.bookopsSierraError "Missing Sierra authentication argument."), false) :=
  c8_config_error_before_network ⟨"", "secret", "https://host.org", "v6"⟩ 0
    .timeout (Or.inl rfl)

/-- C9 (amended): multi-record normalization equals the specification rule —
split a string on commas / walk a list, normalize each element, re-join
with commas; `None` and the empty list yield the empty string — amended in
that an empty *string* input raises an index error (its comma-split is one
empty piece) rather than yielding an empty result. -/
theorem c9_multi_number_normalization_amended :
    (∀ v : SidsArg, prep_sierra_numbers v = specSierraNumbers v) ∧
    prep_sierra_numbers (.str "b12345678a,b12345679a") = .ok "12345678,12345679" ∧
    prep_sierra_numbers (.list [.int 12345678, .int 12345678]) = .ok "12345678,12345678" ∧
    prep_sierra_numbers .pynone = .ok "" ∧
    prep_sierra_numbers (.list []) = .ok "" :=
  ⟨prep_sierra_numbers_eq_spec, by decide, by decide, by decide, by decide⟩

/-- C9 counterexample: the claim says every absent or empty input yields an
empty result rather than an error, but the empty string input raises
`IndexError` (Python `"".split(",") == [""]`, and the empty piece crashes
`_prep_sierra_number`). -/
theorem c9_empty_string_cx :
    prep_sierra_numbers (.str "") = .error .indexError := by decide

/-- C10: a token exchange that fails with a non-200 status, a timeout, or a
connection error leaves the stored token string, expiry instant, and raw
server response unchanged. -/
theorem c10_failed_exchange_atomic (st : TokenState) (now : Int) :
    (∀ (status : Nat) (j : TokenJson), status ≠ 200 →
        (get_token st now (.response status j)).1 = st) ∧
    (get_token st now .timeout).1 = st ∧
    (get_token st now .connectionError).1 = st := by
  refine ⟨?_, rfl, rfl⟩
  intro status j h
  simp [get_token, getTokenTryBody, h]

/-- Witness for `c10_failed_exchange_atomic` at a 400 response. -/
theorem c10_failed_exchange_witness :
    (get_token ⟨some (.str "old"), some 50, none⟩ 60 (.response 400 ⟨none, none⟩)).1 =
      ⟨some (.str "old"), some 50, none⟩ :=
  (c10_failed_exchange_atomic ⟨some (.str "old"), some 50, none⟩ 60).1 400
    ⟨none, none⟩ (by decide)

theorem find_overwrite (k v : String) (hs : List (String × String))
    (h : hs.any (fun p => p.1 = k) = true) :
    (hs.map (fun p => if p.1 = k then (k, v) else p)).find? (fun p => p.1 = k) =
      some (k, v) := by
  induction hs with
  | nil => simp at h
  | cons a t ih =>
    by_cases ha : a.1 = k
    · simp [ha]
    · simp only [List.any_cons, ha, decide_False, Bool.false_or] at h
      simp [ha, ih h]

theorem find_append_absent (k v : String) (hs : List (String × String))
    (h : hs.any (fun p => p.1 = k) = false) :
    (hs ++ [(k, v)]).find? (fun p => p.1 = k) = some (k, v) := by
  induction hs with
  | nil => simp
  | cons a t ih =>
    simp only [List.any_cons, Bool.or_eq_false_iff] at h
    have ha : ¬ a.1 = k := by simpa using h.1
    simp [ha, ih h.2]

theorem headersLookup_headersUpdate (hs : List (String × String)) (k v : String) :
    headersLookup (headersUpdate hs k v) k = some v := by
  unfold headersUpdate headersLookup
  by_cases h : hs.any (fun p => p.1 = k) = true
  · rw [if_pos h, find_overwrite k v hs h]
    rfl
  · rw [if_neg h, find_append_absent k v hs (Bool.eq_false_iff.mpr h)]
    rfl

theorem runChain_getToken_auth (e : PyExc) (x : PyError)
    (h : runExceptChain getTokenExceptClauses e = some x) :
    ∃ m, x = .bookopsSierraError m := by
  cases e <;> simp [runExceptChain, getTokenExceptClauses] at h <;>
    exact ⟨_, h.symm⟩

theorem get_token_error_auth (st : TokenState) (now : Int) (tr : TokenTransport)
    (x : PyError) (h : (get_token st now tr).2 = some x) :
    ∃ m, x = .bookopsSierraError m := by
  unfold get_token at h
  rcases hb : getTokenTryBody st now tr with ⟨st1, exc⟩
  rw [hb] at h
  cases exc with
  | none => simp at h
  | some e =>
    simp only at h
    exact runChain_getToken_auth e x h

/-- C7 (amended): `is_expired` is the pure comparison of the stored expiry
instant against the current UTC instant — true exactly when the expiry is
strictly earlier than now, false at equality — and it is false immediately
after a successful exchange provided the declared `expires_in` is at least
1 second. -/
theorem c7_is_expired_amended :
    (∀ (st : TokenState) (now e : Int), st.expires_on = some e →
        is_expired st now = .ok (decide (e < now))) ∧
    (∀ (st : TokenState) (e : Int), st.expires_on = some e →
        is_expired st e = .ok false) ∧
    (∀ (st : TokenState) (now : Int) (j : TokenJson) (av : JsonVal) (e : Int),
        j.access_token = some av → j.expires_in = some (.num e) → 1 ≤ e →
        is_expired (get_token st now (.response 200 j)).1 now = .ok false) := by
  refine ⟨?_, ?_, ?_⟩
  · intro st now e h
    simp [is_expired, h]
  · intro st e h
    simp [is_expired, h]
  · intro st now j av e ha he h1
    simp [get_token, getTokenTryBody, parse_access_token_string,
      calculate_expiration_time, ha, he, is_expired]
    omega

/-- Witness for `c7_is_expired_amended`: strict comparison at a concrete
state, and freshness right after a concrete exchange with lifetime 3600. -/
theorem c7_is_expired_witness :
    is_expired ⟨some (.str "t"), some 7, none⟩ 9 = .ok (decide ((7 : Int) < 9)) ∧
    is_expired
      (get_token ⟨none, none, none⟩ 100
        (.response 200 ⟨some (.str "t"), some (.num 3600)⟩)).1 100 = .ok false :=
  ⟨c7_is_expired_amended.1 ⟨some (.str "t"), some 7, none⟩ 9 7 rfl,
    c7_is_expired_amended.2.2 ⟨none, none, none⟩ 100
      ⟨some (.str "t"), some (.num 3600)⟩ (.str "t") 3600 rfl rfl (by decide)⟩

/-- C7 counterexample: a successful exchange whose response declares
`expires_in = 0` stores an expiry one second in the past, so `is_expired`
is true immediately afterwards — the claim asserts it is false after every
successful exchange. -/
theorem c7_zero_lifetime_cx :
    (get_token ⟨none, none, none⟩ 100
        (.response 200 ⟨some (.str "t"), some (.num 0)⟩)).2 = none ∧
    is_expired
      (get_token ⟨none, none, none⟩ 100
        (.response 200 ⟨some (.str "t"), some (.num 0)⟩)).1 100 = .ok true := by
  decide

/-- C6: a resource call whose transport response has an error status (the
`400..599` range `raise_for_status` rejects) makes the executor raise a
request error — no `Query` is returned — whose message contains both the
underlying HTTP error text and the response body decoded as UTF-8. -/
theorem c6_http_error_message (s : SessionState) (now e : Int) (status : Nat)
    (reason url content : String) (tokenTr : TokenTransport)
    (he : s.authorization.expires_on = some e) (hfresh : ¬ e < now)
    (h4 : 400 ≤ status) (h6 : status < 600) :
    (query_init s now tokenTr (.response status reason url content)).error =
      some (.bookopsSierraError
        (http_error_msg status reason url ++ ". Server response: " ++ content)) ∧
    containsStr (http_error_msg status reason url ++ ". Server response: " ++ content)
      (http_error_msg status reason url) ∧
    containsStr (http_error_msg status reason url ++ ". Server response: " ++ content)
      content := by
  refine ⟨?_, ?_, containsStr_right _ _⟩
  · have hd : decide (e < now) = false := decide_eq_false hfresh
    simp [query_init, is_expired, he, hd, querySendPhase, raise_for_status,
      h4, h6, runExceptChain, queryExceptClauses]
  · exact ⟨[], (". Server response: " ++ content).data, by simp⟩

/-- Witness for `c6_http_error_message` at a concrete 500 response. -/
theorem c6_http_error_message_witness :
    (query_init ⟨⟨some (.str "tok"), some 99, none⟩, []⟩ 10 .timeout
        (.response 500 "SERVER ERROR" "https://u.org" "spam")).error =
      some (.bookopsSierraError
        (http_error_msg 500 "SERVER ERROR" "https://u.org" ++
          ". Server response: " ++ "spam")) :=
  (c6_http_error_message ⟨⟨some (.str "tok"), some 99, none⟩, []⟩ 10 99 500
    "SERVER ERROR" "https://u.org" "spam" .timeout rfl (by decide) (by decide)
    (by decide)).1

theorem querySendPhase_fields (n : Nat) (s1 : SessionState) (r : HttpTransport) :
    (querySendPhase n s1 r).refreshes = n ∧ (querySendPhase n s1 r).sent = true ∧
    (querySendPhase n s1 r).session = s1 := by
  cases r with
  | response status reason url content =>
    cases hrs : raise_for_status status reason url content <;> simp [querySendPhase, hrs]
  | timeout => exact ⟨rfl, rfl, rfl⟩
  | connectionError => exact ⟨rfl, rfl, rfl⟩
  | otherError nm => exact ⟨rfl, rfl, rfl⟩

/-- C1 (amended): when the token is expired at call time, the executor runs
exactly one refresh through the session before handing the request to the
transport; provided the refresh response declares `expires_in ≥ 1`, the
token is no longer expired afterwards and the session's Authorization
header carries the new token.  A fresh token triggers no refresh.  A failed
refresh propagates its authentication error and the request is never sent. -/
theorem c1_token_refresh_amended (s : SessionState) (now e ein : Int)
    (tok : String) (tokenTr : TokenTransport) (reqTr : HttpTransport) :
    (s.authorization.expires_on = some e → e < now → 1 ≤ ein →
      (query_init s now (.response 200 ⟨some (.str tok), some (.num ein)⟩) reqTr).refreshes = 1 ∧
      (query_init s now (.response 200 ⟨some (.str tok), some (.num ein)⟩) reqTr).sent = true ∧
      is_expired (query_init s now (.response 200 ⟨some (.str tok), some (.num ein)⟩)
        reqTr).session.authorization now = .ok false ∧
      headersLookup (query_init s now (.response 200 ⟨some (.str tok), some (.num ein)⟩)
        reqTr).session.headers "Authorization" = some ("Bearer " ++ tok)) ∧
    (s.authorization.expires_on = some e → ¬ e < now →
      (query_init s now tokenTr reqTr).refreshes = 0 ∧
      (query_init s now tokenTr reqTr).sent = true) ∧
    (s.authorization.expires_on = some e → e < now →
      ∀ x, (get_token s.authorization now tokenTr).2 = some x →
        (query_init s now tokenTr reqTr).error = some x ∧
        (query_init s now tokenTr reqTr).sent = false ∧
        (query_init s now tokenTr reqTr).refreshes = 1 ∧
        ∃ m, x = .bookopsSierraError m) := by
  refine ⟨?_, ?_, ?_⟩
  · intro he hlt hein
    have hd : decide (e < now) = true := decide_eq_true hlt
    have hq : query_init s now (.response 200 ⟨some (.str tok), some (.num ein)⟩) reqTr =
        querySendPhase 1
          { authorization := ⟨some (.str tok), some (now + (ein - 1)),
              some (200, ⟨some (.str tok), some (.num ein)⟩)⟩,
            headers := headersUpdate s.headers "Authorization" ("Bearer " ++ tok) }
          reqTr := by
      simp [query_init, is_expired, he, hd, fetch_new_token, get_token, getTokenTryBody,
        parse_access_token_string, calculate_expiration_time, update_authorization,
        pyStrOfToken, jsonValStr]
    rw [hq]
    obtain ⟨h1, h2, h3⟩ := querySendPhase_fields 1 _ reqTr
    refine ⟨h1, h2, ?_, ?_⟩
    · rw [h3]
      simp [is_expired]
      omega
    · rw [h3]
      exact headersLookup_headersUpdate s.headers "Authorization" ("Bearer " ++ tok)
  · intro he hge
    have hd : decide (e < now) = false := decide_eq_false hge
    have hq : query_init s now tokenTr reqTr = querySendPhase 0 s reqTr := by
      simp [query_init, is_expired, he, hd]
    rw [hq]
    exact ⟨(querySendPhase_fields 0 s reqTr).1, (querySendPhase_fields 0 s reqTr).2.1⟩
  · intro he hlt x hx
    have hd : decide (e < now) = true := decide_eq_true hlt
    rcases hg : get_token s.authorization now tokenTr with ⟨tokS, err⟩
    rw [hg] at hx
    simp only at hx
    have hq : query_init s now tokenTr reqTr =
        ⟨1, false, none, some x, { s with authorization := tokS }⟩ := by
      simp [query_init, is_expired, he, hd, fetch_new_token, hg, hx]
    rw [hq]
    refine ⟨rfl, rfl, rfl, get_token_error_auth s.authorization now tokenTr x ?_⟩
    rw [hg]
    simpa using hx

/-- Witness for `c1_token_refresh_amended`: a concrete stale session,
successful refresh with lifetime 3600, and a 200 resource response. -/
theorem c1_token_refresh_witness :
    (query_init ⟨⟨some (.str "old"), some 10, none⟩, [("User-Agent", "ua")]⟩ 20
        (.response 200 ⟨some (.str "new"), some (.num 3600)⟩)
        (.response 200 "OK" "https://u.org" "body")).refreshes = 1 ∧
    (query_init ⟨⟨some (.str "old"), some 10, none⟩, [("User-Agent", "ua")]⟩ 20
        (.response 200 ⟨some (.str "new"), some (.num 3600)⟩)
        (.response 200 "OK" "https://u.org" "body")).sent = true ∧
    is_expired (query_init ⟨⟨some (.str "old"), some 10, none⟩, [("User-Agent", "ua")]⟩ 20
        (.response 200 ⟨some (.str "new"), some (.num 3600)⟩)
        (.response 200 "OK" "https://u.org" "body")).session.authorization 20 = .ok false ∧
    headersLookup (query_init ⟨⟨some (.str "old"), some 10, none⟩, [("User-Agent", "ua")]⟩ 20
        (.response 200 ⟨some (.str "new"), some (.num 3600)⟩)
        (.response 200 "OK" "https://u.org" "body")).session.headers "Authorization" =
      some ("Bearer " ++ "new") :=
  (c1_token_refresh_amended ⟨⟨some (.str "old"), some 10, none⟩, [("User-Agent", "ua")]⟩
    20 10 3600 "new" .timeout (.response 200 "OK" "https://u.org" "body")).1
    rfl (by decide) (by decide)

/-- C1 counterexample: with a stale token and a refresh response declaring
`expires_in = 0`, exactly one refresh runs and the whole call succeeds, yet
`is_expired` is still true immediately afterwards — the claim asserts it is
false after the refresh. -/
theorem c1_zero_lifetime_cx :
    (query_init ⟨⟨some (.str "old"), some 0, none⟩, []⟩ 5
        (.response 200 ⟨some (.str "new"), some (.num 0)⟩)
        (.response 200 "OK" "u" "b")).refreshes = 1 ∧
    (query_init ⟨⟨some (.str "old"), some 0, none⟩, []⟩ 5
        (.response 200 ⟨some (.str "new"), some (.num 0)⟩)
        (.response 200 "OK" "u" "b")).error = none ∧
    is_expired (query_init ⟨⟨some (.str "old"), some 0, none⟩, []⟩ 5
        (.response 200 ⟨some (.str "new"), some (.num 0)⟩)
        (.response 200 "OK" "u" "b")).session.authorization 5 = .ok true := by
  decide
